import Mathlib

/-!
Verification of the goodreads-scraper repository's core logic against its
natural-language specification.

The development shallowly embeds the repository's Python code:
  * `Record`, dictionary operations, `get_existing_book_map`, `mergeStep`,
    `merge_books_data` — src/src/file_handler.py (merge engine);
  * `pyIntOfString`, `get_max_page_scraped`, `resumeStartPage` —
    src/src/file_handler.py and the resume logic of src/src/main.py;
  * `scrape_list_page`, `crawl_loop` — the page loop of src/src/main.py and
    src/source/scraper.py;
  * `get_soup` — the HTTP-429 retry protocol of src/source/scraper.py;
  * `sanitize_filename`, `improve_cover_resolution`, `download_cover`,
    `scrape_page_covers` — src/source/utils.py and src/source/scraper.py;
  * `merge_books_data_refs` — the same merge engine with Python's reference
    semantics made explicit (records live in a store addressed by index), used
    to reason about in-place mutation of argument records.
Python dicts are modelled as association lists with insertion-order semantics:
assigning to an existing key replaces the value in place (the key keeps its
original position), assigning a fresh key appends.
-/

/-- One catalogue item, with the exact field set of `CSV_FIELDNAMES` in
src/src/config.py.  All fields are strings, as produced by `csv.DictReader`
and `extract_book_data`; the string "N/A" is the repository's sentinel for a
missing value. -/
structure Record where
  title : String
  author : String
  avg_rating : String
  ratings_count : String
  page : String
  cover_url : String
  cover_id : String
  book_url : String
  author_url : String
  scraped_at : String
deriving Repr, DecidableEq, Inhabited

/-- Lookup in a Python dict modelled as an association list: the value of the
first pair whose key matches. -/
def dictFind? {α : Type} (m : List (String × α)) (k : String) : Option α :=
  match m with
  | [] => none
  | p :: rest => if p.1 = k then some p.2 else dictFind? rest k

/-- Assignment `d[k] = v` on a Python dict: an existing key keeps its position
and gets the new value; a fresh key is appended at the end. -/
def dictInsert {α : Type} (m : List (String × α)) (k : String) (v : α) :
    List (String × α) :=
  match m with
  | [] => [(k, v)]
  | p :: rest => if p.1 = k then (k, v) :: rest else p :: dictInsert rest k v

/-- `get_existing_book_map` (src/src/file_handler.py lines 51-57): the dict
comprehension keyed by `book_url`, skipping records whose `book_url` is
"N/A". -/
def get_existing_book_map (existing_books : List Record) :
    List (String × Record) :=
  existing_books.foldl
    (fun m book =>
      if book.book_url ≠ "N/A" then dictInsert m book.book_url book else m)
    []

/-- `{ e with cover_id := c }`: the in-place update
`existing_book['cover_id'] = new_book['cover_id']` of the merge engine. -/
def setCoverId (r : Record) (c : String) : Record := { r with cover_id := c }

/-- The body of the `for new_book in new_books` loop of `merge_books_data`
(src/src/file_handler.py lines 74-86), acting on
(merged map, new_books_count, updated_covers). -/
def mergeStep (acc : List (String × Record) × Nat × Nat) (new_book : Record) :
    List (String × Record) × Nat × Nat :=
  match dictFind? acc.1 new_book.book_url with
  | some existing_book =>
      if existing_book.cover_id = "N/A" ∧ new_book.cover_id ≠ "N/A" then
        (dictInsert acc.1 new_book.book_url
           (setCoverId existing_book new_book.cover_id),
         acc.2.1, acc.2.2 + 1)
      else acc
  | none => (dictInsert acc.1 new_book.book_url new_book, acc.2.1 + 1, acc.2.2)

/-- `merge_books_data` together with the two counters it computes for its log
line: (merged list, new_books_count, updated_covers)
(src/src/file_handler.py lines 60-96). -/
def merge_books_data_counts (existing_books new_books : List Record) :
    List Record × Nat × Nat :=
  let r := new_books.foldl mergeStep (get_existing_book_map existing_books, 0, 0)
  (r.1.map Prod.snd, r.2.1, r.2.2)

/-- The merged map before conversion back to a list (`merged_map` at line 89 of
src/src/file_handler.py). -/
def merge_books_map (existing_books new_books : List Record) :
    List (String × Record) :=
  (new_books.foldl mergeStep (get_existing_book_map existing_books, 0, 0)).1

/-- The list `merge_books_data` returns: the merged map's values in order. -/
def merge_books_data (existing_books new_books : List Record) : List Record :=
  (merge_books_data_counts existing_books new_books).1

/-- `new_books_count` of a merge call. -/
def mergeAddedCount (existing_books new_books : List Record) : Nat :=
  (merge_books_data_counts existing_books new_books).2.1

/-- `updated_covers` of a merge call. -/
def mergeUpdatedCount (existing_books new_books : List Record) : Nat :=
  (merge_books_data_counts existing_books new_books).2.2

/-- Whitespace as Python's `str.strip` and the regex class `\s` see it
(ASCII portion). -/
def isPySpaceChar (c : Char) : Bool :=
  c = ' ' || c = '\t' || c = '\n' || c = '\r' || c = '\x0b' || c = '\x0c'

/-- The decimal value of a nonempty all-digit character list; `none`
otherwise. -/
def parseDigits : List Char → Option Nat
  | [] => none
  | cs =>
      if cs.all Char.isDigit then
        some (cs.foldl (fun n c => n * 10 + (c.toNat - '0'.toNat)) 0)
      else none

/-- Python's `int(s)` on a string, as used by `get_max_page_scraped`: strip
surrounding whitespace, an optional sign, then decimal digits; `none` models
the `ValueError` branch.  (Unicode digits and `_` group separators, which
CPython also accepts, are not modelled; no claim depends on them.) -/
def pyIntOfString (s : String) : Option Int :=
  let t := (s.toList.dropWhile isPySpaceChar).reverse.dropWhile isPySpaceChar
  match t.reverse with
  | '-' :: ds => (parseDigits ds).map (fun n => -(n : Int))
  | '+' :: ds => (parseDigits ds).map (fun n => (n : Int))
  | ds => (parseDigits ds).map (fun n => (n : Int))

/-- The body of the `for book in existing_books` loop of
`get_max_page_scraped`: keep the larger of the running maximum and the
record's parsable `page` value; the `except (ValueError, TypeError)` branch
keeps the running maximum. -/
def maxPageStep (max_page : Int) (book : Record) : Int :=
  match pyIntOfString book.page with
  | some page_num => if page_num > max_page then page_num else max_page
  | none => max_page

/-- `get_max_page_scraped` (src/src/file_handler.py lines 20-34): fold over the
records, keeping the largest parsable `page` value seen, starting from 0 and
skipping records whose `page` does not parse as an integer. -/
def get_max_page_scraped (existing_books : List Record) : Int :=
  if existing_books = [] then 0
  else existing_books.foldl maxPageStep 0

/-- The resume logic of `main` (src/src/main.py lines 166-173): with a nonempty
existing dataset whose max page is positive and at least the requested start
page, continue from the page after it; otherwise keep the requested start. -/
def resumeStartPage (existing_books : List Record) (requested : Int) : Int :=
  if existing_books = [] then requested
  else
    let m := get_max_page_scraped existing_books
    if m > 0 ∧ requested ≤ m then m + 1 else requested

/-- The value claim C2 asserts for the max-page computation: the maximum
integer-parsable `page` value over the records, 0 when there is none.  Written
from the claim's words, to be compared with `get_max_page_scraped`. -/
def claimMaxPage (l : List Record) : Int :=
  match l.filterMap (fun b => pyIntOfString b.page) with
  | [] => 0
  | v :: rest => rest.foldl max v

/-- What one successfully fetched and parsed list page yields: the extracted
records and the `has_next_page` pagination signal. -/
structure PageData where
  books : List Record
  hasNext : Bool
deriving Repr, DecidableEq

/-- `scrape_list_page` (src/source/scraper.py lines 122-170), with the network
and the HTML extractor abstracted into the oracle `pages`: `pages n = none`
models `get_soup` returning `None` for page `n` (timeout or other transport
error, lines 138-140), in which case the method returns `([], False)`;
otherwise it returns the extracted books and the pagination flag. -/
def scrape_list_page (pages : Nat → Option PageData) (page_num : Nat) :
    List Record × Bool :=
  match pages page_num with
  | none => ([], false)
  | some pd => (pd.books, pd.hasNext)

/-- The `while has_next_page_flag and current_page <= end` loop of `main`
(src/src/main.py lines 195-244), written with explicit fuel so that it is
structurally recursive; `crawl_loop` below supplies fuel that can never run
out.  Each iteration scrapes the current page, merges a nonempty batch into
`books_data`, records the page as visited, and continues only while the
pagination flag is set.  The `except` branches of the loop are unreachable
here: in the model neither merging nor saving raises. -/
def crawl_loop_fuel (pages : Nat → Option PageData) :
    Nat → Nat → Nat → List Record → List Nat → List Record × List Nat
  | 0, _, _, books_data, visited => (books_data, visited)
  | fuel + 1, current_page, end_page, books_data, visited =>
      if current_page ≤ end_page then
        let r := scrape_list_page pages current_page
        let books' :=
          if r.1 = [] then books_data else merge_books_data books_data r.1
        let visited' := visited ++ [current_page]
        if r.2 then
          crawl_loop_fuel pages fuel (current_page + 1) end_page books' visited'
        else (books', visited')
      else (books_data, visited)

/-- The crawl loop of `main`: runs from `current_page` while pages remain,
returning the final `books_data` and the list of pages actually processed.
The fuel `end_page + 1 - current_page` bounds the iteration count exactly, so
the fuel case of `crawl_loop_fuel` is never reached. -/
def crawl_loop (pages : Nat → Option PageData) (current_page end_page : Nat)
    (books_data : List Record) (visited : List Nat) : List Record × List Nat :=
  crawl_loop_fuel pages (end_page + 1 - current_page) current_page end_page
    books_data visited

/-- One observed network response for a request `get_soup` issues. -/
inductive FetchOutcome where
  | rateLimited
  | transportError
  | ok (soup : String)
deriving Repr, DecidableEq

/-- `get_soup` (src/source/scraper.py lines 95-120), driven by the sequence of
network responses its successive requests for one URL receive.  Returns
(outcome, seconds slept in rate-limit cooldowns): on HTTP 429 it sleeps
`rate_limit_wait` seconds and retries with the next response; on a timeout or
other request error it returns `some none` (the method's `None`); on success
it returns the parsed page.  The parsed page content is abstracted as the raw
text.  `none` as first component means the observed responses ran out while
the method was still retrying (the recursion is unbounded in the source). -/
def get_soup (rate_limit_wait : Nat) :
    List FetchOutcome → Option (Option String) × Nat
  | [] => (none, 0)
  | .rateLimited :: rest =>
      let r := get_soup rate_limit_wait rest
      (r.1, r.2 + rate_limit_wait)
  | .transportError :: _ => (some none, 0)
  | .ok soup :: _ => (some (some soup), 0)

/-- Membership in the regex class `\w` (ASCII portion, as relevant to the
repository's book titles): letters, digits and the underscore. -/
def isPyWordChar (c : Char) : Bool := c.isAlphanum || c = '_'

/-- `re.sub(r'\s+', '_', s)`: replace every maximal run of whitespace by one
underscore.  The boolean records whether the previous character was part of a
whitespace run already replaced. -/
def collapseWsAux : List Char → Bool → List Char
  | [], _ => []
  | c :: rest, inRun =>
      if isPySpaceChar c then
        if inRun then collapseWsAux rest true
        else '_' :: collapseWsAux rest true
      else c :: collapseWsAux rest false

/-- `sanitize_filename` (src/source/utils.py lines 24-31): drop every
character that is neither a word character nor whitespace, lowercase, collapse
whitespace runs to single underscores, truncate to `max_length` characters
(the source's default, 30, is passed explicitly at the call sites). -/
def sanitize_filename (text : String) (max_length : Nat) : String :=
  let safe := text.toList.filter (fun c => isPyWordChar c || isPySpaceChar c)
  String.mk ((collapseWsAux (safe.map Char.toLower) false).take max_length)

/-- `improve_cover_resolution` (src/source/parser.py lines 85-97).  Python's
substring test `'_SX' in s` is rendered as `splitOn` producing more than one
piece. -/
def improve_cover_resolution (cover_url : String) : String :=
  if cover_url = "" || cover_url = "N/A" then cover_url
  else
    let h := (((cover_url.replace "._SX50_" "").replace "._SY75_" "").replace
      "._SX98_" "")
    if (h.splitOn "_SX").length ≥ 2 then h.replace "._SX200_" "._SX400_" else h

/-- The environment `download_cover` runs against: which filenames already
exist in the covers directory before the run, and which image GETs succeed
(keyed by the URL actually requested). -/
structure CoverEnv where
  diskHas : String → Bool
  fetchOk : String → Bool

/-- The scraper state `download_cover` reads and writes:
`self.cover_download_count`, the set of files written during the run, and a
count of the network requests issued (model bookkeeping for the claims about
fetch counts). -/
structure DlState where
  cover_download_count : Nat
  written : List String
  fetches : Nat
deriving Repr, DecidableEq

/-- `os.path.exists` as `download_cover` sees it: the file was on disk before
the run or has been written during it. -/
def coverFileExists (env : CoverEnv) (s : DlState) (filename : String) : Bool :=
  env.diskHas filename || s.written.contains filename

/-- `download_cover` (src/source/scraper.py lines 46-93): returns "N/A" at
once when the URL is empty or the sentinel or the per-page counter has reached
`max_covers_per_page`; otherwise derives the filename from the title, returns
it without fetching when the file already exists, and else issues one GET for
the resolution-improved URL — on success writing the file, incrementing the
counter and returning the filename, on failure returning "N/A". -/
def download_cover (env : CoverEnv) (max_covers_per_page : Nat) (s : DlState)
    (cover_url book_title : String) : String × DlState :=
  if cover_url = "" || cover_url = "N/A" ||
      s.cover_download_count ≥ max_covers_per_page then
    ("N/A", s)
  else
    let filename := sanitize_filename book_title 30 ++ ".jpg"
    if coverFileExists env s filename then (filename, s)
    else
      let high_res_url := improve_cover_resolution cover_url
      if env.fetchOk high_res_url then
        (filename,
         { s with
            written := s.written ++ [filename]
            cover_download_count := s.cover_download_count + 1
            fetches := s.fetches + 1 })
      else ("N/A", { s with fetches := s.fetches + 1 })

/-- The per-book cover step of `scrape_list_page` (src/source/scraper.py lines
152-159), with `download_covers` enabled: when the counter is still below the
limit, call `download_cover` and store its result in the record's `cover_id`;
otherwise leave the record as extracted (its `cover_id` is already "N/A"). -/
def processBook (env : CoverEnv) (max_covers_per_page : Nat) (s : DlState)
    (book : Record) : Record × DlState :=
  if s.cover_download_count < max_covers_per_page then
    let r := download_cover env max_covers_per_page s book.cover_url book.title
    ({ book with cover_id := r.1 }, r.2)
  else (book, s)

/-- The cover-download phase of one `scrape_list_page` call over the extracted
records: the per-page counter is reset to 0 at the start (src/source/scraper.py
line 129), then each record is processed in order. -/
def scrape_page_covers (env : CoverEnv) (max_covers_per_page : Nat)
    (books : List Record) (s : DlState) : List Record × DlState :=
  books.foldl
    (fun acc book =>
      let r := processBook env max_covers_per_page acc.2 book
      (acc.1 ++ [r.1], r.2))
    ([], { s with cover_download_count := 0 })

/-- A heap of record dicts: Python dict objects addressed by index, so that
the aliasing between `existing_books`, `existing_book_map` and `merged_map`
in `merge_books_data` is explicit.  Reads outside the store yield the default
record; in the modelled calls every address is in range. -/
abbrev RecordStore := List Record

/-- `get_existing_book_map` with reference semantics: the map holds addresses
of the records of `existing_books`, not copies. -/
def get_existing_book_map_refs (store : RecordStore) (existing : List Nat) :
    List (String × Nat) :=
  existing.foldl
    (fun m a =>
      let book := store.getD a default
      if book.book_url ≠ "N/A" then dictInsert m book.book_url a else m)
    []

/-- One iteration of the `for new_book in new_books` loop with reference
semantics, acting on (store, merged map of addresses, new_books_count,
updated_covers).  The cover patch `existing_book['cover_id'] = ...` writes
through the address, mutating the record dict in the store — the dict the
caller's `existing_books` list also holds. -/
def mergeStepRefs (acc : RecordStore × List (String × Nat) × Nat × Nat)
    (a : Nat) : RecordStore × List (String × Nat) × Nat × Nat :=
  match dictFind? acc.2.1 (acc.1.getD a default).book_url with
  | some ea =>
      if (acc.1.getD ea default).cover_id = "N/A" ∧
          (acc.1.getD a default).cover_id ≠ "N/A" then
        (acc.1.set ea
           (setCoverId (acc.1.getD ea default) (acc.1.getD a default).cover_id),
         acc.2.1, acc.2.2.1, acc.2.2.2 + 1)
      else acc
  | none =>
      (acc.1, dictInsert acc.2.1 (acc.1.getD a default).book_url a,
       acc.2.2.1 + 1, acc.2.2.2)

/-- `merge_books_data` with Python's reference semantics: the arguments are
lists of addresses into `store`; the result is (store after the call, the
returned list as addresses, new_books_count, updated_covers).  Everything the
source mutates is visible as the difference between `store` and the returned
store. -/
def merge_books_data_refs (store : RecordStore) (existing new : List Nat) :
    RecordStore × List Nat × Nat × Nat :=
  let r := new.foldl mergeStepRefs
    (store, get_existing_book_map_refs store existing, 0, 0)
  (r.1, r.2.1.map Prod.snd, r.2.2.1, r.2.2.2)

/-- How the store may change across a merge call: every record dict is left
unchanged, or had `cover_id` "N/A" before the call and differs afterwards only
in that field, now holding a concrete value. -/
def storeCoverFrame (store store' : RecordStore) : Prop :=
  store'.length = store.length ∧
  ∀ i : Nat, store'.getD i default = store.getD i default ∨
    ((store.getD i default).cover_id = "N/A" ∧
      ∃ c, c ≠ "N/A" ∧
        store'.getD i default = setCoverId (store.getD i default) c)

/-! Concrete inputs for the scenario parts of the claims and for witnesses. -/

/-- The existing record of the merge scenario: identity "A", page 3, no cover
yet. -/
def recExistingA : Record :=
  ⟨"Book A", "Author A", "4.10", "100", "3", "urlA", "N/A", "A", "N/A", "t0"⟩

/-- The new batch's record with identity "A", page 3 and a concrete cover. -/
def recNewA : Record :=
  ⟨"Book A", "Author A", "4.10", "100", "3", "urlA", "cover_a.jpg", "A", "N/A",
   "t1"⟩

/-- The new batch's record with identity "B", page 4 and no cover. -/
def recNewB : Record :=
  ⟨"Book B", "Author B", "3.90", "50", "4", "urlB", "N/A", "B", "N/A", "t1"⟩

/-- An existing record that already has a concrete cover. -/
def recExistingCover : Record :=
  ⟨"Book X", "Author X", "4.50", "7", "2", "urlX", "cover_x.jpg", "X", "N/A",
   "t0"⟩

/-- A record whose `page` field is the integer-parsable string "-2". -/
def recPageNeg : Record :=
  ⟨"Neg", "Author", "N/A", "N/A", "-2", "u", "N/A", "C", "N/A", "t"⟩

/-- A record on page `n` with identity `url<n>`. -/
def recOnPage (n : Nat) : Record :=
  ⟨"T", "A", "N/A", "N/A", toString n, "u", "N/A", "url" ++ toString n, "N/A",
   "t"⟩

/-- A dataset whose records span pages 1..7. -/
def datasetPages1to7 : List Record := (List.range 7).map (fun i => recOnPage (i + 1))

/-- A record with the sentinel identity "N/A". -/
def recSentinelUrl : Record :=
  ⟨"S", "A", "N/A", "N/A", "1", "u", "N/A", "N/A", "N/A", "t"⟩

/-- First of two records sharing identity "U". -/
def recDupOne : Record :=
  ⟨"T1", "A", "N/A", "N/A", "1", "u", "N/A", "U", "N/A", "t"⟩

/-- Second of two records sharing identity "U". -/
def recDupTwo : Record :=
  ⟨"T2", "A", "N/A", "N/A", "2", "u", "N/A", "U", "N/A", "t"⟩

/-- A page-1 book for the crawl counterexample. -/
def recCrawlB1 : Record :=
  ⟨"B1", "A", "N/A", "N/A", "1", "u", "N/A", "u1", "N/A", "t"⟩

/-- A page-3 book for the crawl counterexample. -/
def recCrawlB3 : Record :=
  ⟨"B3", "A", "N/A", "N/A", "3", "u", "N/A", "u3", "N/A", "t"⟩

/-- A crawl in which page 1 succeeds, the fetch of page 2 fails with a
transport error, and page 3 would succeed with one book. -/
def pagesFailAt2 (n : Nat) : Option PageData :=
  if n = 1 then some ⟨[recCrawlB1], true⟩
  else if n = 2 then none
  else if n = 3 then some ⟨[recCrawlB3], true⟩
  else some ⟨[], false⟩

/-- A cover environment with an empty covers directory in which every image
GET succeeds. -/
def coverEnvAllOk : CoverEnv := ⟨fun _ => false, fun _ => true⟩

/-- The `i`-th extracted book of the five-cover page: eligible cover URL,
`cover_id` still "N/A" as `extract_book_data` leaves it. -/
def recPageBook (i : Nat) : Record :=
  ⟨"Title " ++ toString i, "A", "N/A", "N/A", "1", "cu" ++ toString i, "N/A",
   "bu" ++ toString i, "N/A", "t"⟩

/-- A page of five extracted books, all with eligible cover URLs. -/
def fiveEligibleBooks : List Record :=
  (List.range 5).map (fun i => recPageBook (i + 1))

/-- A scraper state in which two of the page's cover downloads have already
happened. -/
def stateTwoUsed : DlState := ⟨2, [], 0⟩

/-- The store of the mutation counterexample: address 0 holds `recExistingA`
(cover still "N/A"), address 1 holds `recNewA` (same identity, concrete
cover). -/
def storeAliased : RecordStore := [recExistingA, recNewA]

/-! ## Lemmas about the dictionary model -/

theorem dictFind?_dictInsert {α : Type} (m : List (String × α)) (k k' : String)
    (v : α) :
    dictFind? (dictInsert m k v) k' =
      if k' = k then some v else dictFind? m k' := by
  induction m with
  | nil =>
      by_cases h : k' = k
      · subst h; simp [dictInsert, dictFind?]
      · simp [dictInsert, dictFind?, h, Ne.symm h]
  | cons p rest ih =>
      by_cases hp : p.1 = k
      · by_cases h : k' = k
        · subst h; simp [dictInsert, dictFind?, hp]
        · have hk : ¬k = k' := fun hh => h hh.symm
          simp [dictInsert, dictFind?, hp, h, hk]
      · by_cases h : k' = k
        · subst h
          simp [dictInsert, dictFind?, hp, ih, fun hh : p.1 = k' => hp hh]
        · simp [dictInsert, dictFind?, hp, h, ih]

theorem dictInsert_append_of_find?_none {α : Type} (m : List (String × α))
    (k : String) (v : α) (h : dictFind? m k = none) :
    dictInsert m k v = m ++ [(k, v)] := by
  induction m with
  | nil => rfl
  | cons p rest ih =>
      simp only [dictFind?] at h
      by_cases hp : p.1 = k
      · rw [if_pos hp] at h; cases h
      · rw [if_neg hp] at h
        simp [dictInsert, hp, ih h]

theorem dictFind?_mem {α : Type} {m : List (String × α)} {k : String} {v : α}
    (h : dictFind? m k = some v) : (k, v) ∈ m := by
  induction m with
  | nil => cases h
  | cons p rest ih =>
      simp only [dictFind?] at h
      by_cases hp : p.1 = k
      · rw [if_pos hp] at h
        injection h with h'
        exact List.mem_cons.mpr (Or.inl (by cases p; cases hp; cases h'; rfl))
      · rw [if_neg hp] at h
        exact List.mem_cons.mpr (Or.inr (ih h))

theorem mem_dictInsert {α : Type} {m : List (String × α)} {k : String} {v : α}
    {q : String × α} (h : q ∈ dictInsert m k v) : q = (k, v) ∨ q ∈ m := by
  induction m with
  | nil => simpa [dictInsert] using h
  | cons p rest ih =>
      by_cases hp : p.1 = k
      · simp only [dictInsert, if_pos hp, List.mem_cons] at h
        rcases h with h | h
        · exact Or.inl h
        · exact Or.inr (List.mem_cons.mpr (Or.inr h))
      · simp only [dictInsert, if_neg hp, List.mem_cons] at h
        rcases h with h | h
        · exact Or.inr (List.mem_cons.mpr (Or.inl h))
        · rcases ih h with h' | h'
          · exact Or.inl h'
          · exact Or.inr (List.mem_cons.mpr (Or.inr h'))

/-- Splitting one record off the back of the batch `merge_books_data`
processes. -/
theorem merge_counts_append_one (existing new : List Record) (b : Record) :
    merge_books_data_counts existing (new ++ [b]) =
      ((mergeStep (new.foldl mergeStep (get_existing_book_map existing, 0, 0))
          b).1.map Prod.snd,
       (mergeStep (new.foldl mergeStep (get_existing_book_map existing, 0, 0))
          b).2.1,
       (mergeStep (new.foldl mergeStep (get_existing_book_map existing, 0, 0))
          b).2.2) := by
  simp [merge_books_data_counts, List.foldl_append]

/-- The loop body when the identity is absent from the merged map. -/
theorem mergeStep_none (acc : List (String × Record) × Nat × Nat) (b : Record)
    (h : dictFind? acc.1 b.book_url = none) :
    mergeStep acc b = (dictInsert acc.1 b.book_url b, acc.2.1 + 1, acc.2.2) := by
  simp [mergeStep, h]

/-- The loop body in the cover-patch case. -/
theorem mergeStep_patch (acc : List (String × Record) × Nat × Nat)
    (b e : Record) (he : dictFind? acc.1 b.book_url = some e)
    (hc : e.cover_id = "N/A") (hb : b.cover_id ≠ "N/A") :
    mergeStep acc b
      = (dictInsert acc.1 b.book_url (setCoverId e b.cover_id),
         acc.2.1, acc.2.2 + 1) := by
  simp [mergeStep, he, hc, hb]

/-- The loop body when the identity is present and the patch guard fails. -/
theorem mergeStep_noop (acc : List (String × Record) × Nat × Nat)
    (b e : Record) (he : dictFind? acc.1 b.book_url = some e)
    (hng : ¬(e.cover_id = "N/A" ∧ b.cover_id ≠ "N/A")) :
    mergeStep acc b = acc := by
  simp [mergeStep, he, hng]

/-- C1.  `merge_books_data` applies exactly the three-case rule per new
record — identity absent in the merged-so-far index: the record is appended as
new and the records-added count is incremented; identity present with the
existing record's `cover_id` "N/A" and the new record's not "N/A": only the
`cover_id` field of the existing record is patched, in place in the map, and
the covers-updated count is incremented; identity present otherwise: no
change — and in particular merging the scenario's dataset `[recExistingA]`
with the batch `[recNewA, recNewB]` yields exactly 2 records, record A's
`cover_id` equal to "cover_a.jpg", covers-updated count 1 and records-added
count 1. -/
theorem merge_three_case_rule :
    (∀ (existing new : List Record) (b : Record),
      (dictFind? (merge_books_map existing new) b.book_url = none →
        merge_books_data existing (new ++ [b]) =
            merge_books_data existing new ++ [b] ∧
          mergeAddedCount existing (new ++ [b]) =
            mergeAddedCount existing new + 1 ∧
          mergeUpdatedCount existing (new ++ [b]) =
            mergeUpdatedCount existing new) ∧
      (∀ e, dictFind? (merge_books_map existing new) b.book_url = some e →
        e.cover_id = "N/A" → b.cover_id ≠ "N/A" →
        merge_books_map existing (new ++ [b]) =
            dictInsert (merge_books_map existing new) b.book_url
              (setCoverId e b.cover_id) ∧
          mergeAddedCount existing (new ++ [b]) = mergeAddedCount existing new ∧
          mergeUpdatedCount existing (new ++ [b]) =
            mergeUpdatedCount existing new + 1) ∧
      (∀ e, dictFind? (merge_books_map existing new) b.book_url = some e →
        ¬(e.cover_id = "N/A" ∧ b.cover_id ≠ "N/A") →
        merge_books_data_counts existing (new ++ [b]) =
          merge_books_data_counts existing new)) ∧
    merge_books_data_counts [recExistingA] [recNewA, recNewB] =
      ([setCoverId recExistingA "cover_a.jpg", recNewB], 1, 1) := by
  constructor
  · intro existing new b
    have hfold : (new ++ [b]).foldl mergeStep
        (get_existing_book_map existing, 0, 0)
        = mergeStep (new.foldl mergeStep (get_existing_book_map existing, 0, 0))
            b := by
      rw [List.foldl_append]; rfl
    refine ⟨fun h => ?_, fun e he hc hb => ?_, fun e he hng => ?_⟩
    · have hstep := mergeStep_none
        (new.foldl mergeStep (get_existing_book_map existing, 0, 0)) b h
      refine ⟨?_, ?_, ?_⟩
      · show ((new ++ [b]).foldl mergeStep
            (get_existing_book_map existing, 0, 0)).1.map Prod.snd = _
        rw [hfold, hstep]
        show (dictInsert (merge_books_map existing new) b.book_url b).map
            Prod.snd = _
        rw [dictInsert_append_of_find?_none _ _ _ h]
        simp [merge_books_data, merge_books_data_counts, merge_books_map]
      · show ((new ++ [b]).foldl mergeStep
            (get_existing_book_map existing, 0, 0)).2.1 = _
        rw [hfold, hstep]; rfl
      · show ((new ++ [b]).foldl mergeStep
            (get_existing_book_map existing, 0, 0)).2.2 = _
        rw [hfold, hstep]; rfl
    · have hstep := mergeStep_patch
        (new.foldl mergeStep (get_existing_book_map existing, 0, 0)) b e he hc hb
      refine ⟨?_, ?_, ?_⟩
      · show ((new ++ [b]).foldl mergeStep
            (get_existing_book_map existing, 0, 0)).1 = _
        rw [hfold, hstep]; rfl
      · show ((new ++ [b]).foldl mergeStep
            (get_existing_book_map existing, 0, 0)).2.1 = _
        rw [hfold, hstep]; rfl
      · show ((new ++ [b]).foldl mergeStep
            (get_existing_book_map existing, 0, 0)).2.2 = _
        rw [hfold, hstep]; rfl
    · have hstep := mergeStep_noop
        (new.foldl mergeStep (get_existing_book_map existing, 0, 0)) b e he hng
      simp only [merge_books_data_counts, hfold, hstep]
  · rfl

/-- Witness for C1: the three cases of the rule exercised at concrete
inputs. -/
theorem merge_three_case_rule_witness :
    (merge_books_data [recExistingA] ([] ++ [recNewB]) =
        merge_books_data [recExistingA] [] ++ [recNewB] ∧
      mergeAddedCount [recExistingA] ([] ++ [recNewB]) =
        mergeAddedCount [recExistingA] [] + 1 ∧
      mergeUpdatedCount [recExistingA] ([] ++ [recNewB]) =
        mergeUpdatedCount [recExistingA] []) ∧
    (merge_books_map [recExistingA] ([] ++ [recNewA]) =
        dictInsert (merge_books_map [recExistingA] []) recNewA.book_url
          (setCoverId recExistingA recNewA.cover_id) ∧
      mergeAddedCount [recExistingA] ([] ++ [recNewA]) =
        mergeAddedCount [recExistingA] [] ∧
      mergeUpdatedCount [recExistingA] ([] ++ [recNewA]) =
        mergeUpdatedCount [recExistingA] [] + 1) ∧
    merge_books_data_counts [recExistingA] ([] ++ [recExistingA]) =
      merge_books_data_counts [recExistingA] [] :=
  ⟨(merge_three_case_rule.1 [recExistingA] [] recNewB).1 (by decide),
   (merge_three_case_rule.1 [recExistingA] [] recNewA).2.1 recExistingA
     (by decide) (by decide) (by decide),
   (merge_three_case_rule.1 [recExistingA] [] recExistingA).2.2 recExistingA
     (by decide) (by decide)⟩

/-- The running maximum never decreases across the fold of
`get_max_page_scraped`. -/
theorem le_foldl_maxPageStep (l : List Record) (a : Int) :
    a ≤ l.foldl maxPageStep a := by
  induction l generalizing a with
  | nil => exact le_refl a
  | cons c l ih =>
      refine le_trans ?_ (ih (maxPageStep a c))
      unfold maxPageStep
      cases pyIntOfString c.page with
      | none => exact le_refl a
      | some n =>
          by_cases h : n > a
          · simp [h]; omega
          · simp [h]

/-- Every parsable page value of the list bounds the fold from below. -/
theorem parsable_le_foldl_maxPageStep (l : List Record) (b : Record) (n : Int)
    (hn : pyIntOfString b.page = some n) :
    ∀ a : Int, b ∈ l → n ≤ l.foldl maxPageStep a := by
  induction l with
  | nil => intro a hb; cases hb
  | cons c l ih =>
      intro a hb
      rcases List.mem_cons.mp hb with h | h
      · subst h
        refine le_trans ?_ (le_foldl_maxPageStep l (maxPageStep a b))
        unfold maxPageStep
        rw [hn]
        by_cases hgt : n > a
        · simp [hgt]
        · simp [hgt]; omega
      · exact ih (maxPageStep a c) h

/-- The fold's value is its initial value or a parsable page value of the
list. -/
theorem foldl_maxPageStep_attained (l : List Record) (a : Int) :
    l.foldl maxPageStep a = a ∨
      ∃ b ∈ l, pyIntOfString b.page = some (l.foldl maxPageStep a) := by
  induction l generalizing a with
  | nil => exact Or.inl rfl
  | cons c l ih =>
      have step : l.foldl maxPageStep (maxPageStep a c)
          = (c :: l).foldl maxPageStep a := rfl
      rcases ih (maxPageStep a c) with h | ⟨b, hb, hn⟩
      · rw [List.foldl_cons, h]
        unfold maxPageStep
        cases hp : pyIntOfString c.page with
        | none => exact Or.inl rfl
        | some n =>
            by_cases hgt : n > a
            · refine Or.inr ⟨c, List.mem_cons_self c l, ?_⟩
              rw [hp]
              simp [hgt]
            · simp [hgt]
      · exact Or.inr ⟨b, List.mem_cons.mpr (Or.inr hb), hn⟩

/-- Counterexample to C2 as stated: for a record whose `page` field is "-2",
the claim's "maximum integer-parsable page value over the records" is -2,
while `get_max_page_scraped` returns 0 (its running maximum starts at 0 and
never goes below it). -/
theorem max_page_negative_counterexample :
    get_max_page_scraped [recPageNeg] = 0 ∧ claimMaxPage [recPageNeg] = -2 ∧
      get_max_page_scraped [recPageNeg] ≠ claimMaxPage [recPageNeg] := by
  refine ⟨by decide, by decide, by decide⟩

/-- C2, amended.  `get_max_page_scraped` returns the maximum of 0 and all
integer-parsable `page` values of the records (so 0 for the empty list, and
unparsable `page` values are skipped): the result is nonnegative, bounds every
parsable page value, and is 0 or itself a parsable page value of the list; the
effective start page is maxPage + 1 exactly when maxPage > 0 and the requested
start page is at most maxPage, and the requested start page unchanged
otherwise; a dataset spanning pages 1..7 with requested start 1 resumes at 8,
and with requested start 10 stays at 10. -/
theorem resume_start_page_amended :
    (∀ (l : List Record) (requested : Int),
      0 ≤ get_max_page_scraped l ∧
      (∀ b ∈ l, ∀ n : Int, pyIntOfString b.page = some n →
        n ≤ get_max_page_scraped l) ∧
      (get_max_page_scraped l = 0 ∨
        ∃ b ∈ l, pyIntOfString b.page = some (get_max_page_scraped l)) ∧
      resumeStartPage l requested =
        (if get_max_page_scraped l > 0 ∧ requested ≤ get_max_page_scraped l
         then get_max_page_scraped l + 1 else requested)) ∧
    resumeStartPage datasetPages1to7 1 = 8 ∧
      resumeStartPage datasetPages1to7 10 = 10 := by
  refine ⟨fun l requested => ?_, by decide, by decide⟩
  by_cases hl : l = []
  · subst hl
    refine ⟨le_refl 0, ?_, Or.inl rfl, ?_⟩
    · intro b hb; cases hb
    · show requested = _
      rw [if_neg (fun hh => absurd hh.1 (by decide))]
  · have hval : get_max_page_scraped l = l.foldl maxPageStep 0 := by
      unfold get_max_page_scraped
      rw [if_neg hl]
    refine ⟨?_, ?_, ?_, ?_⟩
    · rw [hval]; exact le_foldl_maxPageStep l 0
    · intro b hb n hn
      rw [hval]; exact parsable_le_foldl_maxPageStep l b n hn 0 hb
    · rw [hval]; exact foldl_maxPageStep_attained l 0
    · unfold resumeStartPage
      rw [if_neg hl]

/-- Witness for C2: the parsable-page bound discharged at a concrete
dataset. -/
theorem resume_start_page_amended_witness :
    (5 : Int) ≤ get_max_page_scraped [recOnPage 5] :=
  (resume_start_page_amended.1 [recOnPage 5] 1).2.1 (recOnPage 5) (by decide) 5
    (by decide)

/-- Lookup skips a prefix in which the key does not occur. -/
theorem dictFind?_append_none {α : Type} (m m' : List (String × α))
    (k : String) (h : dictFind? m k = none) :
    dictFind? (m ++ m') k = dictFind? m' k := by
  induction m with
  | nil => rfl
  | cons p rest ih =>
      simp only [dictFind?] at h
      by_cases hp : p.1 = k
      · rw [if_pos hp] at h; cases h
      · rw [if_neg hp] at h
        simp [dictFind?, hp, ih h]

/-- Building the map over records with fresh, non-sentinel identities appends
one entry per record, in order. -/
theorem build_map_fresh (l : List Record) :
    ∀ m : List (String × Record),
      (∀ r ∈ l, r.book_url ≠ "N/A") →
      l.Pairwise (fun a b => a.book_url ≠ b.book_url) →
      (∀ r ∈ l, dictFind? m r.book_url = none) →
      l.foldl
          (fun m book =>
            if book.book_url ≠ "N/A" then dictInsert m book.book_url book
            else m)
          m
        = m ++ l.map (fun r => (r.book_url, r)) := by
  induction l with
  | nil => intro m _ _ _; simp
  | cons c l ih =>
      intro m hna hpw hfresh
      rw [List.foldl_cons, if_pos (hna c (List.mem_cons_self c l)),
        dictInsert_append_of_find?_none _ _ _ (hfresh c (List.mem_cons_self c l)),
        ih (m ++ [(c.book_url, c)])
          (fun r hr => hna r (List.mem_cons_of_mem c hr))
          (List.Pairwise.of_cons hpw)
          (fun r hr => ?_)]
      · simp
      · rw [dictFind?_append_none _ _ _
          (hfresh r (List.mem_cons_of_mem c hr))]
        have hne : c.book_url ≠ r.book_url :=
          (List.pairwise_cons.mp hpw).1 r hr
        simp [dictFind?, hne]

/-- Counterexample to C3 as stated: a dataset containing a record with the
sentinel identity "N/A" and two records sharing an identity is not returned
unchanged by `merge_books_data` with the empty batch — the sentinel record is
dropped and the duplicate collapses. -/
theorem merge_empty_batch_counterexample :
    merge_books_data [recSentinelUrl, recDupOne, recDupTwo] [] ≠
      [recSentinelUrl, recDupOne, recDupTwo] := by
  decide

/-- C3, amended.  `merge_books_data D [] = D` holds for every dataset `D`
whose records all have a non-sentinel `book_url` and pairwise-distinct
`book_url` values (the general statement fails: records keyed "N/A" are
dropped and duplicate identities collapse when the dataset is rebuilt through
the identity index). -/
theorem merge_empty_batch_amended (D : List Record)
    (hna : ∀ r ∈ D, r.book_url ≠ "N/A")
    (hpw : D.Pairwise (fun a b => a.book_url ≠ b.book_url)) :
    merge_books_data D [] = D := by
  show (get_existing_book_map D).map Prod.snd = D
  unfold get_existing_book_map
  rw [build_map_fresh D [] hna hpw (fun r _ => rfl)]
  simp [Function.comp_def]

/-- Witness for C3: the amended idempotence law at a concrete two-record
dataset. -/
theorem merge_empty_batch_amended_witness :
    merge_books_data [recDupOne, recNewB] [] = [recDupOne, recNewB] :=
  merge_empty_batch_amended [recDupOne, recNewB] (by decide) (by decide)

/-- A map entry holding a record with a concrete cover survives every step of
the merge loop unchanged. -/
theorem merge_fold_preserves_concrete (l : List Record) :
    ∀ (acc : List (String × Record) × Nat × Nat) (url : String) (e : Record),
      dictFind? acc.1 url = some e → e.cover_id ≠ "N/A" →
      dictFind? (l.foldl mergeStep acc).1 url = some e := by
  induction l with
  | nil => intro acc url e he _; exact he
  | cons b l ih =>
      intro acc url e he hcov
      rw [List.foldl_cons]
      refine ih _ url e ?_ hcov
      cases hd : dictFind? acc.1 b.book_url with
      | none =>
          rw [mergeStep_none acc b hd]
          show dictFind? (dictInsert acc.1 b.book_url b) url = some e
          rw [dictFind?_dictInsert]
          by_cases hu : url = b.book_url
          · subst hu; rw [he] at hd; cases hd
          · rw [if_neg hu]; exact he
      | some e2 =>
          by_cases hg : e2.cover_id = "N/A" ∧ b.cover_id ≠ "N/A"
          · rw [mergeStep_patch acc b e2 hd hg.1 hg.2]
            show dictFind? (dictInsert acc.1 b.book_url
              (setCoverId e2 b.cover_id)) url = some e
            rw [dictFind?_dictInsert]
            by_cases hu : url = b.book_url
            · subst hu
              rw [he] at hd
              injection hd with hd'
              exact absurd (by rw [hd']; exact hg.1) hcov
            · rw [if_neg hu]; exact he
          · rw [mergeStep_noop acc b e2 hd hg]; exact he

/-- Every value of the merged map originates from a record of the inputs,
either unchanged or with its `cover_id` patched from "N/A" to a concrete
value. -/
theorem merge_fold_origin (S : Record → Prop) (l : List Record) :
    ∀ acc : List (String × Record) × Nat × Nat,
      (∀ p ∈ acc.1, ∃ r, S r ∧ (p.2 = r ∨
        (r.cover_id = "N/A" ∧ p.2.cover_id ≠ "N/A" ∧
          p.2 = setCoverId r p.2.cover_id))) →
      (∀ r ∈ l, S r) →
      ∀ p ∈ (l.foldl mergeStep acc).1,
        ∃ r, S r ∧ (p.2 = r ∨
          (r.cover_id = "N/A" ∧ p.2.cover_id ≠ "N/A" ∧
            p.2 = setCoverId r p.2.cover_id)) := by
  induction l with
  | nil => intro acc hacc _ p hp; exact hacc p hp
  | cons b l ih =>
      intro acc hacc hl p hp
      rw [List.foldl_cons] at hp
      refine ih _ ?_ (fun r hr => hl r (List.mem_cons_of_mem b hr)) p hp
      intro q hq
      cases hd : dictFind? acc.1 b.book_url with
      | none =>
          rw [mergeStep_none acc b hd] at hq
          rcases mem_dictInsert
              (show q ∈ dictInsert acc.1 b.book_url b from hq) with h | h
          · subst h
            exact ⟨b, hl b (List.mem_cons_self b l), Or.inl rfl⟩
          · exact hacc q h
      | some e2 =>
          by_cases hg : e2.cover_id = "N/A" ∧ b.cover_id ≠ "N/A"
          · rw [mergeStep_patch acc b e2 hd hg.1 hg.2] at hq
            rcases mem_dictInsert
                (show q ∈ dictInsert acc.1 b.book_url
                  (setCoverId e2 b.cover_id) from hq) with h | h
            · subst h
              obtain ⟨r, hs, hor⟩ := hacc (b.book_url, e2) (dictFind?_mem hd)
              have he2 : e2 = r := by
                rcases hor with h' | h'
                · exact h'
                · exact absurd hg.1 h'.2.1
              exact ⟨e2, he2 ▸ hs, Or.inr ⟨hg.1, hg.2, rfl⟩⟩
            · exact hacc q h
          · rw [mergeStep_noop acc b e2 hd hg] at hq
            exact hacc q hq

/-- Every entry the identity index draws from `existing_books` holds one of
its records. -/
theorem mem_build_map_aux (existing l : List Record) :
    ∀ m : List (String × Record),
      (∀ p ∈ m, p.2 ∈ existing) → (∀ r ∈ l, r ∈ existing) →
      ∀ p ∈ l.foldl
          (fun m book =>
            if book.book_url ≠ "N/A" then dictInsert m book.book_url book
            else m)
          m,
        p.2 ∈ existing := by
  induction l with
  | nil => intro m hm _ p hp; exact hm p hp
  | cons c l ih =>
      intro m hm hl p hp
      rw [List.foldl_cons] at hp
      refine ih _ ?_ (fun r hr => hl r (List.mem_cons_of_mem c hr)) p hp
      intro q hq
      by_cases hc : c.book_url ≠ "N/A"
      · rw [if_pos hc] at hq
        rcases mem_dictInsert hq with h | h
        · subst h; exact hl c (List.mem_cons_self c l)
        · exact hm q h
      · rw [if_neg hc] at hq
        exact hm q hq

/-- C4.  A pre-existing record whose `cover_id` is already concrete is never
changed by the merge engine: its index entry survives any new batch
unchanged; and every record of the merged output is an input record either
unchanged or with `cover_id` patched from "N/A" to a concrete value — cover
values only ever transition "N/A" to concrete, never the reverse. -/
theorem cover_id_monotone :
    (∀ (existing new : List Record) (url : String) (e : Record),
      dictFind? (get_existing_book_map existing) url = some e →
      e.cover_id ≠ "N/A" →
      dictFind? (merge_books_map existing new) url = some e) ∧
    (∀ (existing new : List Record) (v : Record),
      v ∈ merge_books_data existing new →
      ∃ r, (r ∈ existing ∨ r ∈ new) ∧
        (v = r ∨ (r.cover_id = "N/A" ∧ v.cover_id ≠ "N/A" ∧
          v = setCoverId r v.cover_id))) := by
  constructor
  · intro existing new url e he hcov
    exact merge_fold_preserves_concrete new
      (get_existing_book_map existing, 0, 0) url e he hcov
  · intro existing new v hv
    obtain ⟨p, hp, rfl⟩ := List.mem_map.mp
      (show v ∈ ((new.foldl mergeStep
        (get_existing_book_map existing, 0, 0)).1.map Prod.snd) from hv)
    refine merge_fold_origin (fun r => r ∈ existing ∨ r ∈ new) new
      (get_existing_book_map existing, 0, 0) ?_ (fun r hr => Or.inr hr) p hp
    intro q hq
    exact ⟨q.2,
      Or.inl (mem_build_map_aux existing existing []
        (fun r hr => absurd hr (List.not_mem_nil r)) (fun r hr => hr) q hq),
      Or.inl rfl⟩

/-- Witness for C4: both halves of the monotonicity statement at concrete
inputs. -/
theorem cover_id_monotone_witness :
    dictFind? (merge_books_map [recExistingCover] [recNewA]) "X" =
        some recExistingCover ∧
      (∃ r, (r ∈ [recExistingA] ∨ r ∈ [recNewB]) ∧
        (recNewB = r ∨ (r.cover_id = "N/A" ∧ recNewB.cover_id ≠ "N/A" ∧
          recNewB = setCoverId r recNewB.cover_id))) :=
  ⟨cover_id_monotone.1 [recExistingCover] [recNewA] "X" recExistingCover
      (by decide) (by decide),
   cover_id_monotone.2 [recExistingA] [recNewB] recNewB (by decide)⟩

/-- Dict assignment keeps the keys pairwise distinct. -/
theorem dictInsert_pairwise_keys {α : Type} {m : List (String × α)}
    (h : m.Pairwise (fun p q => p.1 ≠ q.1)) (k : String) (v : α) :
    (dictInsert m k v).Pairwise (fun p q => p.1 ≠ q.1) := by
  induction m with
  | nil => simp [dictInsert]
  | cons p rest ih =>
      rcases List.pairwise_cons.mp h with ⟨hp, hrest⟩
      by_cases hpk : p.1 = k
      · simp only [dictInsert, if_pos hpk]
        refine List.pairwise_cons.mpr ⟨?_, hrest⟩
        intro q hq
        exact hpk ▸ hp q hq
      · simp only [dictInsert, if_neg hpk]
        refine List.pairwise_cons.mpr ⟨?_, ih hrest⟩
        intro q hq
        rcases mem_dictInsert hq with h' | h'
        · subst h'; exact hpk
        · exact hp q h'

/-- Building the identity index yields pairwise-distinct keys, each mapped to
a record carrying that key as its `book_url`. -/
theorem build_map_wf (l : List Record) :
    ∀ m : List (String × Record),
      m.Pairwise (fun p q => p.1 ≠ q.1) → (∀ p ∈ m, p.2.book_url = p.1) →
      (l.foldl
          (fun m book =>
            if book.book_url ≠ "N/A" then dictInsert m book.book_url book
            else m)
          m).Pairwise (fun p q => p.1 ≠ q.1) ∧
        ∀ p ∈ l.foldl
            (fun m book =>
              if book.book_url ≠ "N/A" then dictInsert m book.book_url book
              else m)
            m,
          p.2.book_url = p.1 := by
  induction l with
  | nil => intro m h1 h2; exact ⟨h1, h2⟩
  | cons c l ih =>
      intro m h1 h2
      rw [List.foldl_cons]
      by_cases hc : c.book_url ≠ "N/A"
      · rw [if_pos hc]
        refine ih _ (dictInsert_pairwise_keys h1 _ _) ?_
        intro q hq
        rcases mem_dictInsert hq with h' | h'
        · subst h'; rfl
        · exact h2 q h'
      · rw [if_neg hc]; exact ih _ h1 h2

/-- The merge loop keeps the map's keys pairwise distinct, each mapped to a
record carrying that key as its `book_url`. -/
theorem merge_fold_wf (l : List Record) :
    ∀ acc : List (String × Record) × Nat × Nat,
      acc.1.Pairwise (fun p q => p.1 ≠ q.1) →
      (∀ p ∈ acc.1, p.2.book_url = p.1) →
      (l.foldl mergeStep acc).1.Pairwise (fun p q => p.1 ≠ q.1) ∧
        ∀ p ∈ (l.foldl mergeStep acc).1, p.2.book_url = p.1 := by
  induction l with
  | nil => intro acc h1 h2; exact ⟨h1, h2⟩
  | cons b l ih =>
      intro acc h1 h2
      rw [List.foldl_cons]
      cases hd : dictFind? acc.1 b.book_url with
      | none =>
          rw [mergeStep_none acc b hd]
          refine ih _ (dictInsert_pairwise_keys h1 _ _) ?_
          intro q hq
          rcases mem_dictInsert hq with h' | h'
          · subst h'; rfl
          · exact h2 q h'
      | some e2 =>
          by_cases hg : e2.cover_id = "N/A" ∧ b.cover_id ≠ "N/A"
          · rw [mergeStep_patch acc b e2 hd hg.1 hg.2]
            refine ih _ (dictInsert_pairwise_keys h1 _ _) ?_
            intro q hq
            rcases mem_dictInsert hq with h' | h'
            · subst h'
              exact h2 (b.book_url, e2) (dictFind?_mem hd)
            · exact h2 q h'
          · rw [mergeStep_noop acc b e2 hd hg]
            exact ih acc h1 h2

/-- C10.  For every existing dataset and every new batch — no precondition on
either — the list `merge_books_data` returns has pairwise-distinct `book_url`
values: at most one record per identity, including at most one record keyed
"N/A", even when the inputs contain duplicate identities. -/
theorem merge_output_identities_distinct (existing new : List Record) :
    (merge_books_data existing new).Pairwise
      (fun a b => a.book_url ≠ b.book_url) := by
  have hbuild := build_map_wf existing [] List.Pairwise.nil
    (fun p hp => absurd hp (List.not_mem_nil p))
  obtain ⟨h1, h2⟩ := merge_fold_wf new (get_existing_book_map existing, 0, 0)
    hbuild.1 hbuild.2
  show ((new.foldl mergeStep (get_existing_book_map existing, 0, 0)).1.map
    Prod.snd).Pairwise _
  rw [List.pairwise_map]
  refine List.Pairwise.imp_of_mem ?_ h1
  intro a b ha hb hne
  rw [h2 a ha, h2 b hb]
  exact hne

/-- Witness for C10: the invariant at a concrete duplicate-laden input. -/
theorem merge_output_identities_distinct_witness :
    (merge_books_data [recDupOne, recDupTwo] [recNewA]).Pairwise
      (fun a b => a.book_url ≠ b.book_url) :=
  merge_output_identities_distinct [recDupOne, recDupTwo] [recNewA]

/-- Counterexample to C5 as stated: with pages 1 and 3 fetchable and the fetch
of page 2 failing, the crawl loop processes pages 1 and 2 only — it does not
continue to page 3, and page 3's book never reaches the dataset.  The failed
fetch makes `scrape_list_page` return `([], False)`, and the `while` loop's
`has_next_page_flag` test ends the run. -/
theorem crawl_stops_on_fetch_failure_counterexample :
    (crawl_loop pagesFailAt2 1 5 [] []).2 = [1, 2] ∧
      (3 : Nat) ∉ (crawl_loop pagesFailAt2 1 5 [] []).2 ∧
      recCrawlB3 ∉ (crawl_loop pagesFailAt2 1 5 [] []).1 := by
  refine ⟨by decide, by decide, by decide⟩

/-- C5, amended.  When a page fetch fails with a timeout or any other
transport error, `scrape_list_page` reports the page as empty with no
next-page signal, and the crawl loop therefore ends the run at that page —
no exception propagates and the collected dataset is kept, but the loop does
not continue to the next page index. -/
theorem crawl_fetch_failure_amended :
    (∀ (pages : Nat → Option PageData) (page_num : Nat),
      pages page_num = none → scrape_list_page pages page_num = ([], false)) ∧
    (∀ (pages : Nat → Option PageData) (current_page end_page : Nat)
      (books_data : List Record) (visited : List Nat),
      current_page ≤ end_page → pages current_page = none →
      crawl_loop pages current_page end_page books_data visited
        = (books_data, visited ++ [current_page])) := by
  constructor
  · intro pages page_num h
    simp [scrape_list_page, h]
  · intro pages current_page end_page books_data visited hle hnone
    obtain ⟨k, hk⟩ : ∃ k, end_page + 1 - current_page = k + 1 :=
      ⟨end_page - current_page, by omega⟩
    unfold crawl_loop
    rw [hk]
    simp [crawl_loop_fuel, scrape_list_page, hnone, hle]

/-- Witness for C5: the amended behaviour at the concrete failing crawl. -/
theorem crawl_fetch_failure_amended_witness :
    scrape_list_page pagesFailAt2 2 = ([], false) ∧
      crawl_loop pagesFailAt2 2 5 [recCrawlB1] [1] = ([recCrawlB1], [1, 2]) :=
  ⟨crawl_fetch_failure_amended.1 pagesFailAt2 2 (by decide),
   crawl_fetch_failure_amended.2 pagesFailAt2 2 5 [recCrawlB1] [1]
     (by decide) (by decide)⟩

/-- C6.  On HTTP 429 `get_soup` sleeps the configured cooldown and retries the
same request, for as long as 429 recurs, surfacing no error: a run of `k`
rate-limit responses followed by a success yields the parsed page after
exactly `k` cooldown sleeps (`k * rate_limit_wait` seconds in total). -/
theorem rate_limit_retry (rate_limit_wait : Nat) (k : Nat) (soup : String)
    (rest : List FetchOutcome) :
    get_soup rate_limit_wait
        (List.replicate k FetchOutcome.rateLimited ++ FetchOutcome.ok soup :: rest)
      = (some (some soup), k * rate_limit_wait) := by
  induction k with
  | zero => simp [get_soup]
  | succ n ih =>
      rw [List.replicate_succ, List.cons_append]
      simp [get_soup, ih, Nat.succ_mul]

/-- Witness for C6: two rate-limit responses then success — two sleeps of the
120-second cooldown, then the page. -/
theorem rate_limit_retry_witness :
    get_soup 120 [FetchOutcome.rateLimited, FetchOutcome.rateLimited,
        FetchOutcome.ok "page"]
      = (some (some "page"), 240) :=
  rate_limit_retry 120 2 "page" []

/-- C7.  `download_cover` returns the sentinel immediately — with the scraper
state, fetch count included, untouched — when the cover URL is empty or the
sentinel or the per-page counter has reached the configured maximum; the
per-page counter is reset at the start of each page, so the previous page's
counter value never influences the result; and on a page of five eligible
covers with the default budget of 3, exactly 3 download attempts occur, the
first three records get their stored keys and the remaining two keep the
sentinel. -/
theorem download_budget_rule :
    (∀ (env : CoverEnv) (max_covers_per_page : Nat) (s : DlState)
      (cover_url book_title : String),
      (cover_url = "" ∨ cover_url = "N/A" ∨
        max_covers_per_page ≤ s.cover_download_count) →
      download_cover env max_covers_per_page s cover_url book_title
        = ("N/A", s)) ∧
    (∀ (env : CoverEnv) (max_covers_per_page : Nat) (books : List Record)
      (s s' : DlState), s.written = s'.written → s.fetches = s'.fetches →
      scrape_page_covers env max_covers_per_page books s
        = scrape_page_covers env max_covers_per_page books s') ∧
    scrape_page_covers coverEnvAllOk 3 fiveEligibleBooks ⟨3, [], 0⟩
      = ([setCoverId (recPageBook 1) "title_1.jpg",
          setCoverId (recPageBook 2) "title_2.jpg",
          setCoverId (recPageBook 3) "title_3.jpg",
          recPageBook 4, recPageBook 5],
         ⟨3, ["title_1.jpg", "title_2.jpg", "title_3.jpg"], 3⟩) := by
  refine ⟨?_, ?_, by decide⟩
  · intro env maxc s url title h
    rcases h with h | h | h
    all_goals simp [download_cover, h]
  · intro env maxc books s s' hw hf
    unfold scrape_page_covers
    have hinit : ({ s with cover_download_count := 0 } : DlState)
        = { s' with cover_download_count := 0 } := by
      cases s; cases s'
      simp only at hw hf
      simp [hw, hf]
    rw [hinit]

/-- Witness for C7: the early-return rule and the counter-reset law at
concrete inputs. -/
theorem download_budget_rule_witness :
    download_cover coverEnvAllOk 3 stateTwoUsed "N/A" "Some Title"
        = ("N/A", stateTwoUsed) ∧
      scrape_page_covers coverEnvAllOk 3 fiveEligibleBooks ⟨0, [], 0⟩
        = scrape_page_covers coverEnvAllOk 3 fiveEligibleBooks ⟨7, [], 0⟩ :=
  ⟨download_budget_rule.1 coverEnvAllOk 3 stateTwoUsed "N/A" "Some Title"
      (Or.inr (Or.inl rfl)),
   download_budget_rule.2.1 coverEnvAllOk 3 fiveEligibleBooks ⟨0, [], 0⟩
     ⟨7, [], 0⟩ rfl rfl⟩

/-- Counterexample to C8 as stated: with budget 3 and two of the page's
downloads already used, a first call for title "T" fetches and stores
"t.jpg", but the second call with the same label returns the sentinel — not
the stored key — because the budget check precedes the existence check. -/
theorem download_second_call_counterexample :
    (download_cover coverEnvAllOk 3 stateTwoUsed "u" "T").1 = "t.jpg" ∧
      (download_cover coverEnvAllOk 3 stateTwoUsed "u" "T").2.written
        = ["t.jpg"] ∧
      (download_cover coverEnvAllOk 3
          (download_cover coverEnvAllOk 3 stateTwoUsed "u" "T").2 "u" "T").1
        = "N/A" ∧
      ("N/A" : String) ≠ "t.jpg" := by
  refine ⟨by decide, by decide, by decide, by decide⟩

/-- C8, amended.  Two successive `download_cover` calls with the same label
fetch over the network at most once: if the first call fetches and stores the
object under the key derived from the label (lowercased, non-word characters
stripped, whitespace collapsed to underscore, truncated to 30 characters,
plus ".jpg"), the second call issues no network request, and returns the
existing key when the per-page budget is not yet exhausted at that point —
otherwise it returns the sentinel, still without fetching. -/
theorem download_idempotent_amended (env : CoverEnv) (maxc : Nat) (s : DlState)
    (url url2 title : String)
    (h1 : url ≠ "") (h2 : url ≠ "N/A") (h3 : url2 ≠ "") (h4 : url2 ≠ "N/A")
    (hex : coverFileExists env s (sanitize_filename title 30 ++ ".jpg") = false)
    (hok : env.fetchOk (improve_cover_resolution url) = true)
    (hcnt : s.cover_download_count < maxc) :
    (download_cover env maxc s url title).1
        = sanitize_filename title 30 ++ ".jpg" ∧
      (download_cover env maxc s url title).2.fetches = s.fetches + 1 ∧
      (download_cover env maxc (download_cover env maxc s url title).2 url2
          title).2.fetches
        = (download_cover env maxc s url title).2.fetches ∧
      (download_cover env maxc (download_cover env maxc s url title).2 url2
          title).1
        = (if (download_cover env maxc s url title).2.cover_download_count
              < maxc
           then sanitize_filename title 30 ++ ".jpg" else "N/A") := by
  have hfirst : download_cover env maxc s url title
      = (sanitize_filename title 30 ++ ".jpg",
         { s with
            written := s.written ++ [sanitize_filename title 30 ++ ".jpg"],
            cover_download_count := s.cover_download_count + 1,
            fetches := s.fetches + 1 }) := by
    simp [download_cover, h1, h2, Nat.not_le.mpr hcnt, hex, hok]
  rw [hfirst]
  by_cases hc2 : s.cover_download_count + 1 < maxc
  · have hsecond : download_cover env maxc
        { s with
           written := s.written ++ [sanitize_filename title 30 ++ ".jpg"],
           cover_download_count := s.cover_download_count + 1,
           fetches := s.fetches + 1 } url2 title
        = (sanitize_filename title 30 ++ ".jpg",
           { s with
              written := s.written ++ [sanitize_filename title 30 ++ ".jpg"],
              cover_download_count := s.cover_download_count + 1,
              fetches := s.fetches + 1 }) := by
      simp [download_cover, h3, h4, Nat.not_le.mpr hc2, coverFileExists]
    rw [hsecond]
    simp [hc2]
  · have hsecond : download_cover env maxc
        { s with
           written := s.written ++ [sanitize_filename title 30 ++ ".jpg"],
           cover_download_count := s.cover_download_count + 1,
           fetches := s.fetches + 1 } url2 title
        = ("N/A",
           { s with
              written := s.written ++ [sanitize_filename title 30 ++ ".jpg"],
              cover_download_count := s.cover_download_count + 1,
              fetches := s.fetches + 1 }) := by
      simp [download_cover, Nat.not_lt.mp hc2]
    rw [hsecond]
    simp [hc2]

/-- Witness for C8: the amended two-call law with budget 5 from a fresh
page state. -/
theorem download_idempotent_amended_witness :
    (download_cover coverEnvAllOk 5 ⟨0, [], 0⟩ "u" "T").1
        = sanitize_filename "T" 30 ++ ".jpg" ∧
      (download_cover coverEnvAllOk 5 ⟨0, [], 0⟩ "u" "T").2.fetches
        = (⟨0, [], 0⟩ : DlState).fetches + 1 ∧
      (download_cover coverEnvAllOk 5
          (download_cover coverEnvAllOk 5 ⟨0, [], 0⟩ "u" "T").2 "u"
          "T").2.fetches
        = (download_cover coverEnvAllOk 5 ⟨0, [], 0⟩ "u" "T").2.fetches ∧
      (download_cover coverEnvAllOk 5
          (download_cover coverEnvAllOk 5 ⟨0, [], 0⟩ "u" "T").2 "u" "T").1
        = (if (download_cover coverEnvAllOk 5
                ⟨0, [], 0⟩ "u" "T").2.cover_download_count < 5
           then sanitize_filename "T" 30 ++ ".jpg" else "N/A") :=
  download_idempotent_amended coverEnvAllOk 5 ⟨0, [], 0⟩ "u" "u" "T"
    (by decide) (by decide) (by decide) (by decide) (by decide) (by decide)
    (by decide)

/-- Reading the store after a single-address write. -/
theorem store_getD_set (store : List Record) (i j : Nat) (v : Record) :
    (store.set i v).getD j default
      = if i = j ∧ i < store.length then v else store.getD j default := by
  induction store generalizing i j with
  | nil => simp
  | cons a l ih =>
      cases i with
      | zero =>
          cases j with
          | zero => simp
          | succ j => simp
      | succ i =>
          cases j with
          | zero => simp
          | succ j =>
              simpa [Nat.succ_lt_succ_iff] using ih i j

theorem storeCoverFrame_refl (store : RecordStore) :
    storeCoverFrame store store := ⟨rfl, fun _ => Or.inl rfl⟩

theorem storeCoverFrame_trans {s1 s2 s3 : RecordStore}
    (h12 : storeCoverFrame s1 s2) (h23 : storeCoverFrame s2 s3) :
    storeCoverFrame s1 s3 := by
  refine ⟨h23.1.trans h12.1, fun i => ?_⟩
  rcases h23.2 i with h | ⟨hna, c, hc, heq⟩
  · rw [h]; exact h12.2 i
  · rcases h12.2 i with h' | ⟨hna', c', hc', heq'⟩
    · rw [h'] at hna heq
      exact Or.inr ⟨hna, c, hc, heq⟩
    · rw [heq'] at hna
      exact absurd hna hc'

/-- One iteration of the reference-semantics merge loop respects the cover
frame. -/
theorem mergeStepRefs_frame (acc : RecordStore × List (String × Nat) × Nat × Nat)
    (a : Nat) : storeCoverFrame acc.1 (mergeStepRefs acc a).1 := by
  unfold mergeStepRefs
  split
  · rename_i ea hd
    split
    · rename_i hg
      show storeCoverFrame acc.1
        (acc.1.set ea (setCoverId (acc.1.getD ea default)
          (acc.1.getD a default).cover_id))
      refine ⟨List.length_set _ _ _, fun i => ?_⟩
      rw [store_getD_set]
      by_cases hi : ea = i ∧ ea < acc.1.length
      · rw [if_pos hi]
        rcases hi with ⟨rfl, _⟩
        exact Or.inr ⟨hg.1, (acc.1.getD a default).cover_id, hg.2, rfl⟩
      · rw [if_neg hi]; exact Or.inl rfl
    · exact storeCoverFrame_refl acc.1
  · exact storeCoverFrame_refl acc.1

/-- The whole reference-semantics merge loop respects the cover frame. -/
theorem merge_refs_fold_frame (l : List Nat) :
    ∀ acc : RecordStore × List (String × Nat) × Nat × Nat,
      storeCoverFrame acc.1 ((l.foldl mergeStepRefs acc).1) := by
  induction l with
  | nil => intro acc; exact storeCoverFrame_refl acc.1
  | cons a l ih =>
      intro acc
      rw [List.foldl_cons]
      exact storeCoverFrame_trans (mergeStepRefs_frame acc a)
        (ih (mergeStepRefs acc a))

/-- Counterexample to C9 as stated: merging a batch whose record shares
identity "A" with the existing record at store address 0 mutates that record
dict in place — after the call the dict the caller's `existing_books` list
holds has `cover_id` "cover_a.jpg", no longer its original value. -/
theorem merge_mutates_input_counterexample :
    (merge_books_data_refs storeAliased [0] [1]).1.getD 0 default
        = setCoverId recExistingA "cover_a.jpg" ∧
      (merge_books_data_refs storeAliased [0] [1]).1.getD 0 default
        ≠ storeAliased.getD 0 default := by
  refine ⟨by decide, by decide⟩

/-- C9, amended.  `merge_books_data` performs no I/O and leaves the input
lists themselves intact, but it is not pure with respect to the record dicts
its arguments hold: the cover-patch case mutates the existing record in
place.  That mutation is all it does to the heap: after a call the store has
the same length, and every record dict is unchanged or had `cover_id` "N/A"
before the call and differs only in that field, which now holds a concrete
value. -/
theorem merge_refs_cover_frame (store : RecordStore) (existing new : List Nat) :
    storeCoverFrame store (merge_books_data_refs store existing new).1 :=
  merge_refs_fold_frame new
    (store, get_existing_book_map_refs store existing, 0, 0)

/-- Witness for C9: the frame property at the aliased two-record store. -/
theorem merge_refs_cover_frame_witness :
    storeCoverFrame storeAliased
      (merge_books_data_refs storeAliased [0] [1]).1 :=
  merge_refs_cover_frame storeAliased [0] [1]
